import Mathlib

/-!
Shallow embedding of the `iot_framework` device-orchestration runtime.

Source layout:
  * `src/core/types.rs`              — the `SensorOutput` value type;
  * `src/core/runtime.rs`            — `RuntimeController` (constructor and the
                                       infinite polling loop `run`);
  * `src/devices/actuators/dummy.rs` — the no-op reference actuator;
  * `src/devices/sensors/rain.rs`    — the rain sensor over a GPIO pin;
  * `src/devices/sensors/temperature.rs` — the one-wire temperature sensor;
  * `src/drivers/gpio.rs`            — the minimal GPIO input driver.

Devices are Rust trait objects with `&mut self` methods; here each device is a
state machine: a state value together with a step function.  The heterogeneous
`Vec<Box<dyn …>>` collections become homogeneous lists over a type parameter
that theorems quantify universally (any concrete heterogeneous collection is
captured by instantiating the parameter with a sum type).  The observable
behaviour of one pass of the loop body is recorded as a trace of events:
communicator/actuator invocations and the error reports that `run` prints with
`eprintln!`, plus the end-of-cycle sleep.
-/

/-- The `SensorOutput` value enum of `src/core/types.rs` (the spec's `Value`):
`Bool(bool)`, `Int(i64)`, `Float(f32)`, `Text(String)`, `Bytes(Vec<u8>)`.
The `i64`, `f32` and `u8` payloads are opaque to every operation modelled here
(they are only stored, cloned and passed on), so they are carried as `Int`,
as the 32-bit pattern of the float, and as byte values. -/
inductive SensorOutput where
  | Bool  : Bool → SensorOutput
  | Int   : Int → SensorOutput
  | Float : Nat → SensorOutput
  | Text  : String → SensorOutput
  | Bytes : List Nat → SensorOutput
deriving DecidableEq, Repr, Inhabited

/-- `SensorError` from the sensor capability: `ReadError(String)`, the single
failure case used by every sensor driver in the repository. -/
inductive SensorError where
  | ReadError : String → SensorError
deriving DecidableEq, Repr

/-- Modelled from the spec: `ActuatorError` is described in §7 only as an
opaque failure signal (its declaration, `core/traits/actuator.rs`, is not in
the sources); it is carried opaquely as a diagnostic message. -/
inductive ActuatorError where
  | failure : String → ActuatorError
deriving DecidableEq, Repr

/-- Modelled from the spec: `CommunicatorError` is described in §7 only as an
opaque failure signal (its declaration, `core/traits/communicator.rs`, is not
in the sources); it is carried opaquely as a diagnostic message. -/
inductive CommunicatorError where
  | failure : String → CommunicatorError
deriving DecidableEq, Repr

/-- `tokio::time::Duration`, as far as the runtime uses it: a number of whole
seconds produced by `Duration::from_secs`. -/
structure Duration where
  secs : Nat
deriving DecidableEq, Repr

/-- `Duration::from_secs`. -/
def Duration.from_secs (n : Nat) : Duration := ⟨n⟩

/-- A sensor device (`Box<dyn Sensor<Output = SensorOutput> + Send>`): a
private state together with `fn read(&mut self) -> Result<SensorOutput,
SensorError>`, modelled as a step function returning the result and the
updated state. -/
structure SensorDev (σ : Type) where
  state : σ
  read : σ → Except SensorError SensorOutput × σ

/-- An actuator device (`Box<dyn Actuator<Command = SensorOutput> + Send>`):
private state plus `fn execute(&mut self, command) -> Result<(), ActuatorError>`. -/
structure ActuatorDev (α : Type) where
  state : α
  execute : α → SensorOutput → Except ActuatorError Unit × α

/-- The communicator (`Box<dyn Communicator<Command = SensorOutput,
Response = ()> + Send>`): private state plus `fn send(&mut self, payload) ->
Result<(), CommunicatorError>`. -/
structure CommDev (γ : Type) where
  state : γ
  send : γ → SensorOutput → Except CommunicatorError Unit × γ

/-- One observable event of the loop body in `RuntimeController::run`:
an invocation of `communicator.send`, an invocation of `execute` on the
actuator at a given registration index, one of the three `eprintln!` error
reports, or the end-of-cycle `sleep(self.interval)`. -/
inductive Event where
  | send : SensorOutput → Event
  | reportSendError : CommunicatorError → Event
  | exec : Nat → SensorOutput → Event
  | reportActError : Nat → ActuatorError → Event
  | reportReadError : SensorError → Event
  | sleep : Event
deriving DecidableEq, Repr

/-- The `RuntimeController` struct of `src/core/runtime.rs`: registered
sensors, optional registered actuators, the single communicator, and the
cycle interval. -/
structure RuntimeController (σ γ α : Type) where
  sensors : List (SensorDev σ)
  actuators : Option (List (ActuatorDev α))
  communicator : CommDev γ
  interval : Duration

/-- `RuntimeController::new(sensors, actuators, communicator, interval)`:
stores its arguments, converting the `u64` interval with
`Duration::from_secs`.  The constructor performs no validation. -/
def RuntimeController.new {σ γ α : Type}
    (sensors : List (SensorDev σ))
    (actuators : Option (List (ActuatorDev α)))
    (communicator : CommDev γ)
    (interval : Nat) : RuntimeController σ γ α :=
  ⟨sensors, actuators, communicator, Duration.from_secs interval⟩

/-- The inner actuator loop of `run`:
`for a in acts.iter_mut() { if let Err(e) = a.execute(output.clone()) { eprintln!(…) } }`.
`i` is the registration index of the first actuator in the list; the trace
records each `execute` invocation and each failure report. -/
def execActuators {α : Type} (command : SensorOutput) :
    List (ActuatorDev α) → Nat → List Event × List (ActuatorDev α)
  | [], _ => ([], [])
  | a :: rest, i =>
      let r := a.execute a.state command
      let evs := Event.exec i command ::
        (match r.1 with
         | Except.ok _ => []
         | Except.error e => [Event.reportActError i e])
      let tail := execActuators command rest (i + 1)
      (evs ++ tail.1, ⟨r.2, a.execute⟩ :: tail.2)

/-- Result of processing one sensor inside a cycle: the emitted trace and the
updated sensor, communicator and actuator list. -/
structure StepOut (σ γ α : Type) where
  trace : List Event
  sensor : SensorDev σ
  comm : CommDev γ
  acts : Option (List (ActuatorDev α))

/-- The body of `for s in self.sensors.iter_mut() { match s.read() { … } }`
for a single sensor: on `Ok(output)`, invoke `communicator.send(output)`
(reporting a failure), then, if actuators are configured, run them all; on
`Err(e)`, only report the read error. -/
def processSensor {σ γ α : Type} (comm : CommDev γ)
    (acts : Option (List (ActuatorDev α))) (sen : SensorDev σ) : StepOut σ γ α :=
  match sen.read sen.state with
  | (Except.ok output, s') =>
      let sendR := comm.send comm.state output
      let sendTrace := Event.send output ::
        (match sendR.1 with
         | Except.ok _ => []
         | Except.error e => [Event.reportSendError e])
      match acts with
      | some l =>
          let ex := execActuators output l 0
          ⟨sendTrace ++ ex.1, ⟨s', sen.read⟩, ⟨sendR.2, comm.send⟩, some ex.2⟩
      | none => ⟨sendTrace, ⟨s', sen.read⟩, ⟨sendR.2, comm.send⟩, none⟩
  | (Except.error e, s') => ⟨[Event.reportReadError e], ⟨s', sen.read⟩, comm, acts⟩

/-- Result of one full cycle over the sensor list. -/
structure CycleOut (σ γ α : Type) where
  trace : List Event
  sensors : List (SensorDev σ)
  comm : CommDev γ
  acts : Option (List (ActuatorDev α))

/-- The sensor loop of one cycle: processes the sensors in registration
order, threading the communicator and actuator states. -/
def cycleSensors {σ γ α : Type} :
    List (SensorDev σ) → CommDev γ → Option (List (ActuatorDev α)) → CycleOut σ γ α
  | [], comm, acts => ⟨[], [], comm, acts⟩
  | sen :: rest, comm, acts =>
      let p := processSensor comm acts sen
      let q := cycleSensors rest p.comm p.acts
      ⟨p.trace ++ q.trace, p.sensor :: q.sensors, q.comm, q.acts⟩

/-- One iteration of the infinite `loop` in `RuntimeController::run`: the
sensor loop followed by `sleep(self.interval).await`, yielding the cycle's
trace and the controller state for the next cycle. -/
def RuntimeController.cycle {σ γ α : Type} (rc : RuntimeController σ γ α) :
    List Event × RuntimeController σ γ α :=
  let r := cycleSensors rc.sensors rc.communicator rc.actuators
  (r.trace ++ [Event.sleep], ⟨r.sensors, r.acts, r.comm, rc.interval⟩)

/-- The controller state after `n` iterations of the loop. -/
def afterCycles {σ γ α : Type} :
    RuntimeController σ γ α → Nat → RuntimeController σ γ α
  | rc, 0 => rc
  | rc, n + 1 => afterCycles (rc.cycle).2 n

/-- The trace of the first `n` iterations of `run`'s infinite loop. -/
def runTrace {σ γ α : Type} : RuntimeController σ γ α → Nat → List Event
  | _, 0 => []
  | rc, n + 1 => (rc.cycle).1 ++ runTrace (rc.cycle).2 n

/-- The payloads of the `communicator.send` invocations in a trace, in order. -/
def sentValues (t : List Event) : List SensorOutput :=
  t.filterMap fun ev =>
    match ev with
    | Event.send v => some v
    | _ => none

/-- The `execute` invocations in a trace: actuator index and command, in order. -/
def execCalls (t : List Event) : List (Nat × SensorOutput) :=
  t.filterMap fun ev =>
    match ev with
    | Event.exec i v => some (i, v)
    | _ => none

/-- The result each sensor's `read()` returns in the coming cycle (each sensor
is read exactly once per cycle, from its state at the start of the cycle). -/
def cycleReadResults {σ : Type} (ss : List (SensorDev σ)) :
    List (Except SensorError SensorOutput) :=
  ss.map fun s => (s.read s.state).1

/-- The successfully read values of a list of read results, in order. -/
def okValues (rs : List (Except SensorError SensorOutput)) : List SensorOutput :=
  rs.filterMap fun r =>
    match r with
    | Except.ok v => some v
    | Except.error _ => none

/-! ## Concrete devices -/

/-- `DummyActuator` (`src/devices/actuators/dummy.rs`): a unit struct with no
fields.  Its `execute` prints a console line and does nothing else. -/
structure DummyActuator where
deriving DecidableEq, Repr

/-- `DummyActuator::new()`. -/
def DummyActuator.new : DummyActuator := {}

/-- `DummyActuator::execute(&mut self, _command)`: ignores the command,
returns `Ok(())`, and leaves `self` untouched (the struct has no fields; the
only effect is a `println!`, which is console output, not state). -/
def DummyActuator.execute (a : DummyActuator) (_command : SensorOutput) :
    Except ActuatorError Unit × DummyActuator :=
  (Except.ok (), a)

/-- `rppal::gpio::Level`. -/
inductive Level where
  | High : Level
  | Low : Level
deriving DecidableEq, Repr

/-- `GpioDriver` (`src/drivers/gpio.rs`): the BCM pin number plus the physical
level the pin currently reads.  The level is set by the environment (the
hardware); theorems quantify over it. -/
structure GpioDriver where
  pin_number : Nat
  level : Level
deriving DecidableEq, Repr

/-- `GpioDriver::read_level`: the physical level. -/
def GpioDriver.read_level (g : GpioDriver) : Level := g.level

/-- `GpioDriver::read_bool`: `true` iff the level is `High`. -/
def GpioDriver.read_bool (g : GpioDriver) : Bool :=
  g.read_level == Level.High

/-- `RainSensor` (`src/devices/sensors/rain.rs`): a GPIO driver plus the
`active_low` polarity flag. -/
structure RainSensor where
  gpio : GpioDriver
  active_low : Bool
deriving DecidableEq, Repr

/-- `RainSensor::read`: reads the raw pin level, flips it when `active_low`,
and returns `Ok(Text("HÚMEDO"))` when wet, `Ok(Text("SECO"))` otherwise. -/
def RainSensor.read (s : RainSensor) : Except SensorError SensorOutput :=
  let raw_high := s.gpio.read_bool
  let wet := if s.active_low then !raw_high else raw_high
  Except.ok (SensorOutput.Text (if wet then "HÚMEDO" else "SECO"))

/-- `Temperature` (`src/devices/sensors/temperature.rs`): holds the one-wire
device path. -/
structure Temperature where
  device_path : String
deriving DecidableEq, Repr

/-- `Temperature::new(device_id)`: builds the `w1_slave` path with `format!`
and returns `Ok`; despite the `Result` return type there is no failure case. -/
def Temperature.new (device_id : String) : Except SensorError Temperature :=
  Except.ok ⟨"/sys/bus/w1/devices/" ++ device_id ++ "/w1_slave"⟩

/-- `Temperature::read_temp_raw`: `fs::read_to_string(&self.device_path)`,
with any I/O failure mapped to `SensorError::ReadError("Error leyendo
archivo: " + e)`.  The filesystem is modelled as an oracle from paths to
either file contents or an I/O error message. -/
def Temperature.read_temp_raw (t : Temperature)
    (fs : String → Except String String) : Except SensorError String :=
  match fs t.device_path with
  | Except.ok s => Except.ok s
  | Except.error e =>
      Except.error (SensorError.ReadError ("Error leyendo archivo: " ++ e))

/-! ## Small concrete devices used to instantiate theorems -/

/-- A communicator whose `send` always succeeds. -/
def okComm : CommDev Unit := ⟨(), fun s _ => (Except.ok (), s)⟩

/-- A communicator whose `send` always fails. -/
def downComm : CommDev Unit :=
  ⟨(), fun s _ => (Except.error (CommunicatorError.failure "broker unreachable"), s)⟩

/-- A sensor whose `read` always returns the given value. -/
def okSensor (v : SensorOutput) : SensorDev Unit :=
  ⟨(), fun s => (Except.ok v, s)⟩

/-- A sensor whose `read` always fails with `ReadError m`. -/
def failSensor (m : String) : SensorDev Unit :=
  ⟨(), fun s => (Except.error (SensorError.ReadError m), s)⟩

/-- An actuator whose `execute` always succeeds. -/
def okAct : ActuatorDev Unit := ⟨(), fun s _ => (Except.ok (), s)⟩

/-- An actuator whose `execute` always fails. -/
def failAct : ActuatorDev Unit :=
  ⟨(), fun s _ => (Except.error (ActuatorError.failure "jam"), s)⟩

/-! ## Helper lemmas about the loop -/

/-- The sensor loop distributes over list append: the second part of the
sensor list is processed with the communicator/actuator state left by the
first part, and the traces concatenate. -/
theorem cycleSensors_append {σ γ α : Type} (xs ys : List (SensorDev σ))
    (c : CommDev γ) (a : Option (List (ActuatorDev α))) :
    cycleSensors (xs ++ ys) c a =
      ⟨(cycleSensors xs c a).trace ++
         (cycleSensors ys (cycleSensors xs c a).comm (cycleSensors xs c a).acts).trace,
       (cycleSensors xs c a).sensors ++
         (cycleSensors ys (cycleSensors xs c a).comm (cycleSensors xs c a).acts).sensors,
       (cycleSensors ys (cycleSensors xs c a).comm (cycleSensors xs c a).acts).comm,
       (cycleSensors ys (cycleSensors xs c a).comm (cycleSensors xs c a).acts).acts⟩ := by
  induction xs generalizing c a with
  | nil => simp [cycleSensors]
  | cons s rest ih =>
      simp [cycleSensors, ih (processSensor c a s).comm (processSensor c a s).acts]

/-- The actuator loop distributes over list append, the second part starting
at the index following the first part. -/
theorem execActuators_append {α : Type} (v : SensorOutput)
    (xs ys : List (ActuatorDev α)) (i : Nat) :
    execActuators v (xs ++ ys) i =
      ((execActuators v xs i).1 ++ (execActuators v ys (i + xs.length)).1,
       (execActuators v xs i).2 ++ (execActuators v ys (i + xs.length)).2) := by
  induction xs generalizing i with
  | nil => simp [execActuators]
  | cons a rest ih =>
      have h1 := ih (i + 1)
      have h2 : i + 1 + rest.length = i + (rest.length + 1) := by omega
      rw [h2] at h1
      simp only [List.cons_append, execActuators, List.length_cons, List.append_eq, h1]
      simp [List.append_assoc]

/-- Processing a sensor whose read fails emits exactly the read-error report:
no send, no actuator execution, and the communicator and actuator states are
untouched. -/
theorem processSensor_read_error {σ γ α : Type} (comm : CommDev γ)
    (acts : Option (List (ActuatorDev α))) (sen : SensorDev σ)
    (e : SensorError) (s' : σ) (h : sen.read sen.state = (Except.error e, s')) :
    processSensor comm acts sen =
      ⟨[Event.reportReadError e], ⟨s', sen.read⟩, comm, acts⟩ := by
  simp [processSensor, h]

/-- Processing a sensor whose read succeeds with `v`, with actuators
configured: the trace is the send invocation, the send-failure report when the
send fails, then the actuator loop's trace. -/
theorem processSensor_read_ok {σ γ α : Type} (comm : CommDev γ)
    (l : List (ActuatorDev α)) (sen : SensorDev σ)
    (v : SensorOutput) (s' : σ) (h : sen.read sen.state = (Except.ok v, s')) :
    processSensor comm (some l) sen =
      ⟨Event.send v ::
         (match (comm.send comm.state v).1 with
          | Except.ok _ => []
          | Except.error e => [Event.reportSendError e]) ++ (execActuators v l 0).1,
       ⟨s', sen.read⟩, ⟨(comm.send comm.state v).2, comm.send⟩,
       some (execActuators v l 0).2⟩ := by
  simp [processSensor, h]

/-- The actuator loop's trace contains no communicator send. -/
theorem sentValues_execActuators {α : Type} (v : SensorOutput)
    (l : List (ActuatorDev α)) (i : Nat) :
    sentValues (execActuators v l i).1 = [] := by
  induction l generalizing i with
  | nil => simp [execActuators, sentValues]
  | cons a rest ih =>
      simp only [execActuators]
      cases h : (a.execute a.state v).1 with
      | ok _ => simpa [sentValues, h] using ih (i + 1)
      | error e => simpa [sentValues, h] using ih (i + 1)

/-- `sentValues` distributes over trace concatenation. -/
theorem sentValues_append (t u : List Event) :
    sentValues (t ++ u) = sentValues t ++ sentValues u := by
  simp [sentValues]

/-- `execCalls` distributes over trace concatenation. -/
theorem execCalls_append (t u : List Event) :
    execCalls (t ++ u) = execCalls t ++ execCalls u := by
  simp [execCalls]

/-- The actuator loop invokes `execute v` on every actuator, in registration
order: its execute-invocation projection is index `i`, `i+1`, …, each paired
with `v`. -/
theorem execCalls_execActuators {α : Type} (v : SensorOutput)
    (l : List (ActuatorDev α)) (i : Nat) :
    execCalls (execActuators v l i).1 =
      (List.range' i l.length).map (fun j => (j, v)) := by
  induction l generalizing i with
  | nil => simp [execActuators, execCalls]
  | cons a rest ih =>
      simp only [execActuators, List.length_cons, List.range'_succ, List.map_cons]
      cases h : (a.execute a.state v).1 with
      | ok _ => simpa [execCalls, h] using ih (i + 1)
      | error e => simpa [execCalls, h] using ih (i + 1)

/-- `sentValues` on the empty trace. -/
theorem sentValues_nil : sentValues [] = [] := rfl

/-- `sentValues` on a cons: a send event contributes its payload, every other
event contributes nothing. -/
theorem sentValues_cons (e : Event) (t : List Event) :
    sentValues (e :: t) =
      (match e with
       | Event.send v => [v]
       | _ => []) ++ sentValues t := by
  cases e <;> simp [sentValues]

/-- The send invocations a single sensor contributes to the cycle trace:
exactly one with the read value when the read succeeds, none when it fails —
whatever the communicator and actuators do. -/
theorem sentValues_processSensor {σ γ α : Type} (c : CommDev γ)
    (a : Option (List (ActuatorDev α))) (sen : SensorDev σ) :
    sentValues (processSensor c a sen).trace =
      match (sen.read sen.state).1 with
      | Except.ok v => [v]
      | Except.error _ => [] := by
  rcases hr : sen.read sen.state with ⟨r, s'⟩
  cases r with
  | ok v =>
      cases a with
      | none =>
          cases hs : (c.send c.state v).1 <;>
            simp only [processSensor, hr, hs, sentValues_cons, sentValues_nil] <;> rfl
      | some l =>
          cases hs : (c.send c.state v).1 <;>
            simp only [processSensor, hr, hs, sentValues_append, sentValues_cons,
              sentValues_nil, sentValues_execActuators, List.cons_append,
              List.nil_append, List.append_nil]
  | error e => simp [processSensor, hr, sentValues]

/-- Over a whole cycle, the communicator receives exactly the successfully
read values, in sensor registration order. -/
theorem sentValues_cycleSensors {σ γ α : Type} (ss : List (SensorDev σ))
    (c : CommDev γ) (a : Option (List (ActuatorDev α))) :
    sentValues (cycleSensors ss c a).trace = okValues (cycleReadResults ss) := by
  induction ss generalizing c a with
  | nil => simp [cycleSensors, sentValues, cycleReadResults, okValues]
  | cons sen rest ih =>
      simp only [cycleSensors, sentValues_append, sentValues_processSensor, ih,
        cycleReadResults, List.map_cons, okValues, List.filterMap_cons]
      cases (sen.read sen.state).1 <;> simp [okValues, cycleReadResults]

/-- Every cycle's trace ends with the end-of-cycle sleep. -/
theorem cycleTrace_getLast {σ γ α : Type} (rc : RuntimeController σ γ α) :
    (rc.cycle).1.getLast? = some Event.sleep := by
  simp only [RuntimeController.cycle]
  exact List.getLast?_concat _

/-- The trace of `n + 1` cycles is the trace of `n` cycles followed by the
trace of one further cycle from the state the loop has then reached. -/
theorem runTrace_succ {σ γ α : Type} (rc : RuntimeController σ γ α) (n : Nat) :
    runTrace rc (n + 1) = runTrace rc n ++ ((afterCycles rc n).cycle).1 := by
  induction n generalizing rc with
  | zero => simp [runTrace, afterCycles]
  | succ n ih =>
      have h1 : runTrace rc (n + 2) = (rc.cycle).1 ++ runTrace (rc.cycle).2 (n + 1) := rfl
      have h2 : runTrace rc (n + 1) = (rc.cycle).1 ++ runTrace (rc.cycle).2 n := rfl
      have h3 : afterCycles rc (n + 1) = afterCycles (rc.cycle).2 n := rfl
      rw [h1, ih, h2, h3, List.append_assoc]

/-- `execCalls` on the empty trace. -/
theorem execCalls_nil : execCalls [] = [] := rfl

/-- `execCalls` on a cons: an execute event contributes its index and
command, every other event contributes nothing. -/
theorem execCalls_cons (e : Event) (t : List Event) :
    execCalls (e :: t) =
      (match e with
       | Event.exec i v => [(i, v)]
       | _ => []) ++ execCalls t := by
  cases e <;> simp [execCalls]

/-! ## The claims -/

/-- C5 counterexample: `RuntimeController::new` does not reject interval
zero.  Constructing an orchestrator with `interval = 0` succeeds — the
constructor has no failure channel at all — and yields a controller that
stores interval 0 and whose loop cycles exactly as with any other interval. -/
theorem C5_interval_zero_accepted :
    (RuntimeController.new ([] : List (SensorDev Unit))
        (none : Option (List (ActuatorDev Unit))) okComm 0).interval =
      Duration.from_secs 0 ∧
    ((RuntimeController.new [okSensor (SensorOutput.Bool true)]
        (none : Option (List (ActuatorDev Unit))) okComm 0).cycle).1 =
      [Event.send (SensorOutput.Bool true), Event.sleep] :=
  ⟨rfl, rfl⟩

/-- C5 (amended): `RuntimeController::new` enforces no precondition on the
interval: it stores all four arguments unchanged (the interval via
`Duration::from_secs`), and in particular accepts `interval = 0`, storing a
zero-second duration. -/
theorem C5_new_performs_no_validation {σ γ α : Type} (ss : List (SensorDev σ))
    (a : Option (List (ActuatorDev α))) (c : CommDev γ) (i : Nat) :
    RuntimeController.new ss a c i = ⟨ss, a, c, Duration.from_secs i⟩ ∧
    (RuntimeController.new ss a c 0).interval.secs = 0 :=
  ⟨rfl, rfl⟩

/-- C6: with an empty sensor list and no actuators, every cycle of the run
loop is exactly the end-of-cycle sleep: the trace of `n` cycles is `n` sleep
events, with no communicator send and no actuator execution. -/
theorem C6_zero_devices_loop_only_sleeps {σ γ α : Type} (c : CommDev γ)
    (d : Duration) (n : Nat) :
    runTrace (⟨[], none, c, d⟩ : RuntimeController σ γ α) n =
      List.replicate n Event.sleep ∧
    sentValues (runTrace (⟨[], none, c, d⟩ : RuntimeController σ γ α) n) = [] ∧
    execCalls (runTrace (⟨[], none, c, d⟩ : RuntimeController σ γ α) n) = [] := by
  have h : runTrace (⟨[], none, c, d⟩ : RuntimeController σ γ α) n =
      List.replicate n Event.sleep := by
    induction n with
    | zero => rfl
    | succ n ih =>
        have h1 : runTrace (⟨[], none, c, d⟩ : RuntimeController σ γ α) (n + 1) =
            ((⟨[], none, c, d⟩ : RuntimeController σ γ α).cycle).1 ++
              runTrace ((⟨[], none, c, d⟩ : RuntimeController σ γ α).cycle).2 n := rfl
        rw [h1]
        simpa [RuntimeController.cycle, cycleSensors, List.replicate_succ] using ih
    
  have hs : ∀ m : Nat, sentValues (List.replicate m Event.sleep) = [] := by
    intro m
    induction m with
    | zero => rfl
    | succ m ih => simpa [List.replicate_succ, sentValues_cons] using ih
  have he : ∀ m : Nat, execCalls (List.replicate m Event.sleep) = [] := by
    intro m
    induction m with
    | zero => rfl
    | succ m ih => simpa [List.replicate_succ, execCalls_cons] using ih
  exact ⟨h, by rw [h]; exact hs n, by rw [h]; exact he n⟩

/-- C7: the loop has no terminal state.  For every configuration and every
`n`, the trace of `n + 1` cycles extends the trace of `n` cycles by one
further full cycle; that cycle's trace ends with the interval sleep and is
nonempty, so after the sleep the loop always begins another cycle and `run`
never returns. -/
theorem C7_loop_never_terminates {σ γ α : Type} (rc : RuntimeController σ γ α)
    (n : Nat) :
    runTrace rc (n + 1) = runTrace rc n ++ ((afterCycles rc n).cycle).1 ∧
    ((afterCycles rc n).cycle).1.getLast? = some Event.sleep ∧
    (runTrace rc n).length < (runTrace rc (n + 1)).length := by
  refine ⟨runTrace_succ rc n, cycleTrace_getLast _, ?_⟩
  rw [runTrace_succ rc n]
  simp [RuntimeController.cycle]

/-- C8: the no-op reference actuator accepts every `Value` variant: its
`execute` returns `Ok(())` on any command and leaves the actuator state
unchanged. -/
theorem C8_dummy_actuator_accepts_every_value (a : DummyActuator)
    (v : SensorOutput) :
    DummyActuator.execute a v = (Except.ok (), a) := rfl

/-- C9: `RainSensor::read` never returns an error: for every GPIO level and
polarity it returns `Ok(Text("HÚMEDO"))` exactly when
`wet = (if active_low then !raw_high else raw_high)` holds, and
`Ok(Text("SECO"))` otherwise — always one of these two text values. -/
theorem C9_rain_sensor_read_total (s : RainSensor) :
    s.read = Except.ok (SensorOutput.Text
        (if (if s.active_low then !s.gpio.read_bool else s.gpio.read_bool)
         then "HÚMEDO" else "SECO")) ∧
    (s.read = Except.ok (SensorOutput.Text "HÚMEDO") ↔
      (if s.active_low then !s.gpio.read_bool else s.gpio.read_bool) = true) ∧
    (s.read = Except.ok (SensorOutput.Text "HÚMEDO") ∨
      s.read = Except.ok (SensorOutput.Text "SECO")) := by
  refine ⟨rfl, ?_, ?_⟩ <;>
    cases hw : (if s.active_low then !s.gpio.read_bool else s.gpio.read_bool) <;>
      simp [RainSensor.read, hw]

/-- C10: `Temperature::new` returns `Ok` for every device id — despite the
`Result` return type the constructor has no failure case — and a missing
device file is surfaced only later, by the read path, as
`SensorError::ReadError`. -/
theorem C10_temperature_new_always_ok (device_id : String) :
    Temperature.new device_id =
      Except.ok ⟨"/sys/bus/w1/devices/" ++ device_id ++ "/w1_slave"⟩ ∧
    ∀ (t : Temperature) (fs : String → Except String String) (e : String),
      fs t.device_path = Except.error e →
      Temperature.read_temp_raw t fs =
        Except.error (SensorError.ReadError ("Error leyendo archivo: " ++ e)) := by
  refine ⟨rfl, fun t fs e h => ?_⟩
  simp [Temperature.read_temp_raw, h]

/-- C10, instantiated: the constructor succeeds on the device id used by
`main.rs`, and a failing filesystem read surfaces as a `ReadError`. -/
theorem C10_temperature_new_always_ok_witness :
    Temperature.new "28-00000b0e60f1" =
      Except.ok ⟨"/sys/bus/w1/devices/" ++ "28-00000b0e60f1" ++ "/w1_slave"⟩ ∧
    Temperature.read_temp_raw ⟨"p"⟩
        (fun _ => Except.error "No such file or directory") =
      Except.error (SensorError.ReadError
        ("Error leyendo archivo: " ++ "No such file or directory")) :=
  ⟨(C10_temperature_new_always_ok "28-00000b0e60f1").1,
   (C10_temperature_new_always_ok "28-00000b0e60f1").2 ⟨"p"⟩
     (fun _ => Except.error "No such file or directory")
     "No such file or directory" rfl⟩

/-- C1: a failing sensor read is isolated.  With the failing sensor at any
position in the registration order, the cycle's trace is the prefix sensors'
trace, then exactly the read-error report — no send and no actuator execution
for that sensor — and then the remaining sensors' trace, produced from the
same communicator/actuator state as if the failing sensor were absent; the
cycle still ends with the interval sleep, so the loop is not terminated. -/
theorem C1_read_failure_is_isolated {σ γ α : Type}
    (pre post : List (SensorDev σ)) (sen : SensorDev σ)
    (comm : CommDev γ) (acts : Option (List (ActuatorDev α))) (d : Duration)
    (e : SensorError) (s' : σ)
    (h : sen.read sen.state = (Except.error e, s')) :
    cycleSensors (pre ++ sen :: post) comm acts =
      ⟨(cycleSensors pre comm acts).trace ++
         Event.reportReadError e ::
           (cycleSensors post (cycleSensors pre comm acts).comm
              (cycleSensors pre comm acts).acts).trace,
       (cycleSensors pre comm acts).sensors ++
         ⟨s', sen.read⟩ ::
           (cycleSensors post (cycleSensors pre comm acts).comm
              (cycleSensors pre comm acts).acts).sensors,
       (cycleSensors post (cycleSensors pre comm acts).comm
          (cycleSensors pre comm acts).acts).comm,
       (cycleSensors post (cycleSensors pre comm acts).comm
          (cycleSensors pre comm acts).acts).acts⟩ ∧
    ((⟨pre ++ sen :: post, acts, comm, d⟩ :
        RuntimeController σ γ α).cycle).1.getLast? = some Event.sleep := by
  refine ⟨?_, cycleTrace_getLast _⟩
  have hp : ∀ (c' : CommDev γ) (a' : Option (List (ActuatorDev α))),
      processSensor c' a' sen = ⟨[Event.reportReadError e], ⟨s', sen.read⟩, c', a'⟩ :=
    fun c' a' => processSensor_read_error c' a' sen e s' h
  rw [cycleSensors_append]
  simp [cycleSensors, hp]

/-- C1, instantiated on the spec's scenario: sensor A reads a float, sensor B
fails with `ReadError("gpio init: fail")`, and a third sensor follows;
the cycle reports B's error between A's and C's normal processing. -/
theorem C1_read_failure_is_isolated_witness :
    cycleSensors ([okSensor (SensorOutput.Float 2150)] ++
        failSensor "gpio init: fail" :: [okSensor (SensorOutput.Int 2)])
        okComm (some [okAct]) =
      ⟨(cycleSensors [okSensor (SensorOutput.Float 2150)] okComm
           (some [okAct])).trace ++
         Event.reportReadError (SensorError.ReadError "gpio init: fail") ::
           (cycleSensors [okSensor (SensorOutput.Int 2)]
              (cycleSensors [okSensor (SensorOutput.Float 2150)] okComm
                 (some [okAct])).comm
              (cycleSensors [okSensor (SensorOutput.Float 2150)] okComm
                 (some [okAct])).acts).trace,
       (cycleSensors [okSensor (SensorOutput.Float 2150)] okComm
           (some [okAct])).sensors ++
         ⟨(), (failSensor "gpio init: fail").read⟩ ::
           (cycleSensors [okSensor (SensorOutput.Int 2)]
              (cycleSensors [okSensor (SensorOutput.Float 2150)] okComm
                 (some [okAct])).comm
              (cycleSensors [okSensor (SensorOutput.Float 2150)] okComm
                 (some [okAct])).acts).sensors,
       (cycleSensors [okSensor (SensorOutput.Int 2)]
          (cycleSensors [okSensor (SensorOutput.Float 2150)] okComm
             (some [okAct])).comm
          (cycleSensors [okSensor (SensorOutput.Float 2150)] okComm
             (some [okAct])).acts).comm,
       (cycleSensors [okSensor (SensorOutput.Int 2)]
          (cycleSensors [okSensor (SensorOutput.Float 2150)] okComm
             (some [okAct])).comm
          (cycleSensors [okSensor (SensorOutput.Float 2150)] okComm
             (some [okAct])).acts).acts⟩ ∧
    ((⟨[okSensor (SensorOutput.Float 2150)] ++
          failSensor "gpio init: fail" :: [okSensor (SensorOutput.Int 2)],
        some [okAct], okComm, Duration.from_secs 5⟩ :
        RuntimeController Unit Unit Unit).cycle).1.getLast? = some Event.sleep :=
  C1_read_failure_is_isolated [okSensor (SensorOutput.Float 2150)]
    [okSensor (SensorOutput.Int 2)] (failSensor "gpio init: fail")
    okComm (some [okAct]) (Duration.from_secs 5)
    (SensorError.ReadError "gpio init: fail") () rfl

/-- C2: deterministic registration order.  Over any cycle the communicator
receives exactly the successfully read values, one send per successful read,
in sensor registration order; and for a sensor whose read succeeds with `V`,
the send of `V` is the first thing done for it, followed by `execute(V)` on
every configured actuator in actuator registration order (indices 0, 1, …). -/
theorem C2_sends_follow_registration_order {σ γ α : Type}
    (ss : List (SensorDev σ)) (c : CommDev γ)
    (a : Option (List (ActuatorDev α)))
    (c' : CommDev γ) (l : List (ActuatorDev α)) (sen : SensorDev σ)
    (v : SensorOutput) (s' : σ)
    (h : sen.read sen.state = (Except.ok v, s')) :
    sentValues (cycleSensors ss c a).trace = okValues (cycleReadResults ss) ∧
    (processSensor c' (some l) sen).trace.head? = some (Event.send v) ∧
    execCalls (processSensor c' (some l) sen).trace =
      (List.range l.length).map (fun i => (i, v)) := by
  refine ⟨sentValues_cycleSensors ss c a, ?_, ?_⟩
  · rw [processSensor_read_ok c' l sen v s' h]
    simp
  · rw [processSensor_read_ok c' l sen v s' h]
    cases hs : (c'.send c'.state v).1 <;>
      simp [hs, execCalls_cons, execCalls_append, execCalls_nil,
        execCalls_execActuators, List.range_eq_range']

/-- C2, instantiated: three sensors with distinct tagged values (the middle
one failing) send their successful values in registration order, and a
successful sensor first sends, then drives both actuators in order. -/
theorem C2_sends_follow_registration_order_witness :
    sentValues (cycleSensors [okSensor (SensorOutput.Text "a"),
        failSensor "x", okSensor (SensorOutput.Text "b")] okComm
        (none : Option (List (ActuatorDev Unit)))).trace =
      okValues (cycleReadResults [okSensor (SensorOutput.Text "a"),
        failSensor "x", okSensor (SensorOutput.Text "b")]) ∧
    (processSensor okComm (some [okAct, failAct])
        (okSensor (SensorOutput.Float 2150))).trace.head? =
      some (Event.send (SensorOutput.Float 2150)) ∧
    execCalls (processSensor okComm (some [okAct, failAct])
        (okSensor (SensorOutput.Float 2150))).trace =
      (List.range ([okAct, failAct] : List (ActuatorDev Unit)).length).map
        (fun i => (i, SensorOutput.Float 2150)) :=
  C2_sends_follow_registration_order
    [okSensor (SensorOutput.Text "a"), failSensor "x",
      okSensor (SensorOutput.Text "b")] okComm none
    okComm [okAct, failAct] (okSensor (SensorOutput.Float 2150))
    (SensorOutput.Float 2150) () rfl

/-- C3: a communicator send failure is reported and does not suppress
actuation: when the read succeeds with `V` and the send of `V` fails, the
sensor's trace is the send invocation, the send-error report, and then the
actuator loop, which still invokes `execute(V)` on every configured actuator
in registration order. -/
theorem C3_send_failure_still_actuates {σ γ α : Type} (c : CommDev γ)
    (l : List (ActuatorDev α)) (sen : SensorDev σ) (v : SensorOutput) (s' : σ)
    (e : CommunicatorError) (cs' : γ)
    (hr : sen.read sen.state = (Except.ok v, s'))
    (hs : c.send c.state v = (Except.error e, cs')) :
    (processSensor c (some l) sen).trace =
      Event.send v :: Event.reportSendError e :: (execActuators v l 0).1 ∧
    execCalls (processSensor c (some l) sen).trace =
      (List.range l.length).map (fun i => (i, v)) := by
  rw [processSensor_read_ok c l sen v s' hr]
  refine ⟨by simp [hs], ?_⟩
  simp [hs, execCalls_cons, execCalls_append, execCalls_nil,
    execCalls_execActuators, List.range_eq_range']

/-- C3, instantiated: with an unreachable broker, the value is still executed
on both actuators after the send-error report. -/
theorem C3_send_failure_still_actuates_witness :
    (processSensor downComm (some [okAct, failAct])
        (okSensor (SensorOutput.Float 2150))).trace =
      Event.send (SensorOutput.Float 2150) ::
        Event.reportSendError (CommunicatorError.failure "broker unreachable") ::
          (execActuators (SensorOutput.Float 2150) [okAct, failAct] 0).1 ∧
    execCalls (processSensor downComm (some [okAct, failAct])
        (okSensor (SensorOutput.Float 2150))).trace =
      (List.range ([okAct, failAct] : List (ActuatorDev Unit)).length).map
        (fun i => (i, SensorOutput.Float 2150)) :=
  C3_send_failure_still_actuates downComm [okAct, failAct]
    (okSensor (SensorOutput.Float 2150)) (SensorOutput.Float 2150) ()
    (CommunicatorError.failure "broker unreachable") () rfl rfl

/-- C4: an actuator failure is isolated.  With the failing actuator at any
registration position, the actuator loop's trace is the earlier actuators'
trace, the failing actuator's invocation and its error report, then the later
actuators' trace at the following indices; every actuator in the list is
still invoked with the cycle's value, and sensor processing continues
sequentially past any such failure. -/
theorem C4_actuator_failure_is_isolated {σ γ α : Type} (v : SensorOutput)
    (pre post : List (ActuatorDev α)) (a : ActuatorDev α)
    (e : ActuatorError) (as' : α)
    (h : a.execute a.state v = (Except.error e, as'))
    (sen : SensorDev σ) (rest : List (SensorDev σ)) (c : CommDev γ)
    (ao : Option (List (ActuatorDev α))) :
    (execActuators v (pre ++ a :: post) 0).1 =
      (execActuators v pre 0).1 ++
        Event.exec pre.length v :: Event.reportActError pre.length e ::
          (execActuators v post (pre.length + 1)).1 ∧
    execCalls (execActuators v (pre ++ a :: post) 0).1 =
      (List.range (pre ++ a :: post).length).map (fun i => (i, v)) ∧
    (cycleSensors (sen :: rest) c ao).trace =
      (processSensor c ao sen).trace ++
        (cycleSensors rest (processSensor c ao sen).comm
          (processSensor c ao sen).acts).trace := by
  refine ⟨?_, ?_, rfl⟩
  · have hx := congrArg Prod.fst (execActuators_append v pre (a :: post) 0)
    simp only [Nat.zero_add] at hx
    rw [hx]
    simp [execActuators, h]
  · simp [execCalls_execActuators, List.range_eq_range']

/-- C4, instantiated: the failing middle actuator of three is reported at
index 1 and the third actuator still executes at index 2; all three are
invoked with the value, and a subsequent sensor is still processed. -/
theorem C4_actuator_failure_is_isolated_witness :
    (execActuators (SensorOutput.Bool true) ([okAct] ++ failAct :: [okAct]) 0).1 =
      (execActuators (SensorOutput.Bool true) [okAct] 0).1 ++
        Event.exec ([okAct] : List (ActuatorDev Unit)).length (SensorOutput.Bool true) ::
          Event.reportActError ([okAct] : List (ActuatorDev Unit)).length
              (ActuatorError.failure "jam") ::
            (execActuators (SensorOutput.Bool true) [okAct]
              (([okAct] : List (ActuatorDev Unit)).length + 1)).1 ∧
    execCalls (execActuators (SensorOutput.Bool true) ([okAct] ++ failAct :: [okAct]) 0).1 =
      (List.range (([okAct] ++ failAct :: [okAct]) : List (ActuatorDev Unit)).length).map
        (fun i => (i, SensorOutput.Bool true)) ∧
    (cycleSensors (okSensor (SensorOutput.Bool true) :: []) okComm
        (some [okAct, failAct, okAct])).trace =
      (processSensor okComm (some [okAct, failAct, okAct])
          (okSensor (SensorOutput.Bool true))).trace ++
        (cycleSensors ([] : List (SensorDev Unit))
          (processSensor okComm (some [okAct, failAct, okAct])
            (okSensor (SensorOutput.Bool true))).comm
          (processSensor okComm (some [okAct, failAct, okAct])
            (okSensor (SensorOutput.Bool true))).acts).trace :=
  C4_actuator_failure_is_isolated (SensorOutput.Bool true) [okAct] [okAct]
    failAct (ActuatorError.failure "jam") () rfl
    (okSensor (SensorOutput.Bool true)) [] okComm (some [okAct, failAct, okAct])
